import Mathlib

/-!
Verification of the lol-crawler coordination core against its specification.

The Rust source is shallowly embedded: each Rust function becomes a Lean
function over explicit state.  `u32`/`u64` machine integers are modelled as
`Nat` (all quantities involved stay far below the machine width on every
input the claims exercise; the cast `intervals_passed as u32` is the
identity in that range).  `Instant` values and `Duration`s are modelled as
natural numbers of milliseconds; `Instant::duration_since` saturates at
zero, which truncated `Nat` subtraction matches.  Fallible Rust functions
returning `Result` become `Except`.
-/

/-! ## TokenBucket (src/rate_limiter/token_bucket.rs) -/

structure TokenBucket where
  capacity : Nat
  tokens : Nat
  refill_rate : Nat
  refill_interval : Nat
  last_refill : Nat
  deriving Repr, DecidableEq

namespace TokenBucket

/-- `TokenBucket::new` (tokens start at capacity, `last_refill` at the
creation instant). -/
def new (capacity refill_rate refill_interval now : Nat) : TokenBucket :=
  { capacity := capacity
    tokens := capacity
    refill_rate := refill_rate
    refill_interval := refill_interval
    last_refill := now }

/-- `TokenBucket::per_second` (interval = 1 s = 1000 ms). -/
def per_second (capacity rate_per_second now : Nat) : TokenBucket :=
  new capacity rate_per_second 1000 now

/-- `TokenBucket::per_two_minutes` (interval = 120 s = 120000 ms). -/
def per_two_minutes (capacity rate_per_two_minutes now : Nat) : TokenBucket :=
  new capacity rate_per_two_minutes 120000 now

/-- `TokenBucket::refill`: lazy refill computed at access time. -/
def refill (b : TokenBucket) (now : Nat) : TokenBucket :=
  let elapsed := now - b.last_refill
  if b.refill_interval ≤ elapsed then
    let intervals_passed := elapsed / b.refill_interval
    let tokens_to_add := intervals_passed * b.refill_rate
    { b with tokens := Nat.min (b.tokens + tokens_to_add) b.capacity
             last_refill := now }
  else
    b

/-- `TokenBucket::try_acquire`: refill, then decrement iff enough tokens.
Returns the success flag together with the updated bucket. -/
def try_acquire (b : TokenBucket) (now tokens : Nat) : Bool × TokenBucket :=
  let b := b.refill now
  if tokens ≤ b.tokens then
    (true, { b with tokens := b.tokens - tokens })
  else
    (false, b)

end TokenBucket

/-! Spec-side transcription of the claim wording for the bucket (C3):
"if elapsed ≥ I, add floor(elapsed / I) · R tokens clamped to C and set
lastRefill to now, a partial interval adds no tokens; then succeed and
decrement by n iff tokens ≥ n, else return false leaving tokens
unchanged". -/

/-- Refill as worded by the specification (for the refinement check of C3). -/
def refillSpec (b : TokenBucket) (now : Nat) : TokenBucket :=
  let elapsed := now - b.last_refill
  if elapsed ≥ b.refill_interval then
    { b with tokens := Nat.min b.capacity (b.tokens + elapsed / b.refill_interval * b.refill_rate)
             last_refill := now }
  else
    b

/-- `tryAcquire` as worded by the specification (for the refinement check of C3). -/
def tryAcquireSpec (b : TokenBucket) (now n : Nat) : Bool × TokenBucket :=
  let b := refillSpec b now
  if b.tokens ≥ n then (true, { b with tokens := b.tokens - n }) else (false, b)

/-- C3: every `tryAcquire(n)` first performs the lazy refill (at least one
full interval elapsed adds `floor(elapsed/I)·R` tokens clamped to `C` and
resets `lastRefill`; a partial interval adds nothing), then succeeds and
decrements by `n` iff the refilled token count is at least `n`, otherwise
returns false leaving the tokens unchanged. -/
theorem tryAcquire_refill_spec (b : TokenBucket) (now n : Nat) :
    b.try_acquire now n = tryAcquireSpec b now n ∧
    ((b.try_acquire now n).1 = true ↔ n ≤ (b.refill now).tokens) ∧
    ((b.try_acquire now n).1 = false →
      (b.try_acquire now n).2.tokens = (b.refill now).tokens) := by
  constructor
  · unfold TokenBucket.try_acquire tryAcquireSpec refillSpec TokenBucket.refill
    simp only [ge_iff_le, Nat.min_comm]
  · constructor
    · unfold TokenBucket.try_acquire
      by_cases h : n ≤ (b.refill now).tokens <;> simp [h]
    · unfold TokenBucket.try_acquire
      by_cases h : n ≤ (b.refill now).tokens <;> simp [h]

/-! ## RateLimiter (src/rate_limiter/limiter.rs)

The `DashMap<String, Arc<RwLock<TokenBucket>>>` maps are modelled as
association lists; `entry(key).or_insert_with(default)` becomes a lookup
falling back to the default bucket, with the mutated bucket written back
under the key afterwards (the `Arc` aliasing means the map always ends up
holding the bucket as mutated by `try_acquire`).  All refills triggered by
one `try_acquire_all` call are modelled at a single instant `now`. -/

structure RateLimitConfig where
  application_limit_per_second : Nat
  application_limit_per_two_minutes : Nat
  max_concurrent_requests : Nat
  retry_delay_ms : Nat
  max_retries : Nat
  deriving Repr, DecidableEq

def lookupBucket (m : List (String × TokenBucket)) (key : String)
    (dflt : TokenBucket) : TokenBucket :=
  match m.find? (fun e => e.1 = key) with
  | some e => e.2
  | none => dflt

def setBucket : List (String × TokenBucket) → String → TokenBucket →
    List (String × TokenBucket)
  | [], k, b => [(k, b)]
  | (k', b') :: rest, k, b =>
      if k' = k then (k, b) :: rest else (k', b') :: setBucket rest k b

structure RateLimiter where
  application_limiter_per_second : TokenBucket
  application_limiter_per_two_minutes : TokenBucket
  method_limiters : List (String × TokenBucket)
  service_limiters : List (String × TokenBucket)
  config : RateLimitConfig
  deriving Repr, DecidableEq

namespace RateLimiter

/-- `RateLimiter::new`. -/
def new (config : RateLimitConfig) (now : Nat) : RateLimiter :=
  { application_limiter_per_second :=
      TokenBucket.per_second config.application_limit_per_second
        config.application_limit_per_second now
    application_limiter_per_two_minutes :=
      TokenBucket.per_two_minutes config.application_limit_per_two_minutes
        config.application_limit_per_two_minutes now
    method_limiters := []
    service_limiters := []
    config := config }

/-- Default bucket created lazily for an unseen method key (20/s). -/
def defaultMethodBucket (now : Nat) : TokenBucket := TokenBucket.per_second 20 20 now

/-- Default bucket created lazily for an unseen service key (100/s). -/
def defaultServiceBucket (now : Nat) : TokenBucket := TokenBucket.per_second 100 100 now

/-- `RateLimiter::extract_service_from_endpoint`: 3rd segment of the
`/`-separated path, or `"unknown"` when there are fewer than 3 segments. -/
def extract_service_from_endpoint (endpoint : String) : String :=
  match endpoint.splitOn "/" with
  | _ :: _ :: s :: _ => s
  | _ => "unknown"

/-- `RateLimiter::try_acquire_all`: attempt one token from the app-per-second,
app-per-two-minutes, method and service buckets in that order, stopping at
the first refusal.  Consumed tokens are not restored on a later refusal. -/
def try_acquire_all (r : RateLimiter) (now : Nat) (endpoint region : String) :
    Bool × RateLimiter :=
  let (ok1, b1) := r.application_limiter_per_second.try_acquire now 1
  if ¬ ok1 then
    (false, { r with application_limiter_per_second := b1 })
  else
    let (ok2, b2) := r.application_limiter_per_two_minutes.try_acquire now 1
    if ¬ ok2 then
      (false, { r with application_limiter_per_second := b1
                       application_limiter_per_two_minutes := b2 })
    else
      let method_key := endpoint ++ ":" ++ region
      let m := lookupBucket r.method_limiters method_key (defaultMethodBucket now)
      let (ok3, m') := m.try_acquire now 1
      if ¬ ok3 then
        (false, { r with application_limiter_per_second := b1
                         application_limiter_per_two_minutes := b2
                         method_limiters := setBucket r.method_limiters method_key m' })
      else
        let service_key := extract_service_from_endpoint endpoint ++ ":" ++ region
        let s := lookupBucket r.service_limiters service_key (defaultServiceBucket now)
        let (ok4, s') := s.try_acquire now 1
        if ¬ ok4 then
          (false, { r with application_limiter_per_second := b1
                           application_limiter_per_two_minutes := b2
                           method_limiters := setBucket r.method_limiters method_key m'
                           service_limiters := setBucket r.service_limiters service_key s' })
        else
          (true, { r with application_limiter_per_second := b1
                          application_limiter_per_two_minutes := b2
                          method_limiters := setBucket r.method_limiters method_key m'
                          service_limiters := setBucket r.service_limiters service_key s' })

/-- The bucket `try_acquire_all` consults at stage `i` (0 = app/s,
1 = app/2min, 2 = method, 3 = service), reading lazily-created buckets as
their defaults. -/
def stageBucket (r : RateLimiter) (now : Nat) (endpoint region : String) : Nat → TokenBucket
  | 0 => r.application_limiter_per_second
  | 1 => r.application_limiter_per_two_minutes
  | 2 => lookupBucket r.method_limiters (endpoint ++ ":" ++ region) (defaultMethodBucket now)
  | 3 => lookupBucket r.service_limiters
      (extract_service_from_endpoint endpoint ++ ":" ++ region) (defaultServiceBucket now)
  | _ => r.application_limiter_per_second

/-- Post-refill token count of the stage-`i` bucket. -/
def stageTokens (r : RateLimiter) (now : Nat) (endpoint region : String) (i : Nat) : Nat :=
  ((r.stageBucket now endpoint region i).refill now).tokens

/-- Index of the first stage whose bucket refuses `tryAcquire(1)` (4 when
every stage grants). -/
def failIdx (r : RateLimiter) (now : Nat) (endpoint region : String) : Nat :=
  if r.stageTokens now endpoint region 0 = 0 then 0
  else if r.stageTokens now endpoint region 1 = 0 then 1
  else if r.stageTokens now endpoint region 2 = 0 then 2
  else if r.stageTokens now endpoint region 3 = 0 then 3
  else 4

end RateLimiter

/-- `try_acquire` for one token, written as an explicit conditional. -/
theorem TokenBucket.try_acquire_one (b : TokenBucket) (now : Nat) :
    b.try_acquire now 1 =
      if 1 ≤ (b.refill now).tokens then
        (true, { b.refill now with tokens := (b.refill now).tokens - 1 })
      else (false, b.refill now) := by
  unfold TokenBucket.try_acquire
  dsimp only

theorem lookupBucket_setBucket_same (m : List (String × TokenBucket))
    (k : String) (b d : TokenBucket) :
    lookupBucket (setBucket m k b) k d = b := by
  induction m with
  | nil => simp [setBucket, lookupBucket]
  | cons e rest ih =>
      obtain ⟨k', b'⟩ := e
      by_cases h : k' = k
      · simp [setBucket, lookupBucket, h]
      · simpa [setBucket, lookupBucket, h] using ih

/-- C1: `tryAcquireAll` consults the app-per-second, app-per-two-minutes,
per-method and per-service buckets with `tryAcquire(1)` in that fixed
order; it returns true iff every stage has a post-refill token, the first
refusing stage short-circuits the chain (its bucket is refilled but not
decremented, later stages are untouched), and every stage before the
refusal keeps its decremented token count — nothing is refunded. -/
theorem tryAcquireAll_chain (r : RateLimiter) (now : Nat) (endpoint region : String) :
    ((r.try_acquire_all now endpoint region).1 = true ↔
      ∀ i < 4, 1 ≤ r.stageTokens now endpoint region i) ∧
    (∀ i < 4,
      (r.try_acquire_all now endpoint region).2.stageBucket now endpoint region i =
        (if i < r.failIdx now endpoint region then
          { (r.stageBucket now endpoint region i).refill now with
              tokens := ((r.stageBucket now endpoint region i).refill now).tokens - 1 }
        else if i = r.failIdx now endpoint region then
          (r.stageBucket now endpoint region i).refill now
        else r.stageBucket now endpoint region i)) := by
  have t0 : r.stageTokens now endpoint region 0 =
      (r.application_limiter_per_second.refill now).tokens := rfl
  have t1 : r.stageTokens now endpoint region 1 =
      (r.application_limiter_per_two_minutes.refill now).tokens := rfl
  have t2 : r.stageTokens now endpoint region 2 =
      ((lookupBucket r.method_limiters (endpoint ++ ":" ++ region)
        (RateLimiter.defaultMethodBucket now)).refill now).tokens := rfl
  have t3 : r.stageTokens now endpoint region 3 =
      ((lookupBucket r.service_limiters
        (RateLimiter.extract_service_from_endpoint endpoint ++ ":" ++ region)
        (RateLimiter.defaultServiceBucket now)).refill now).tokens := rfl
  by_cases h0 : r.stageTokens now endpoint region 0 = 0
  · have hfail : r.failIdx now endpoint region = 0 := by
      simp [RateLimiter.failIdx, h0]
    have hc : ¬ 1 ≤ (r.application_limiter_per_second.refill now).tokens := by omega
    have hout : r.try_acquire_all now endpoint region =
        (false, { r with application_limiter_per_second :=
          r.application_limiter_per_second.refill now }) := by
      simp [RateLimiter.try_acquire_all, TokenBucket.try_acquire_one, hc]
    rw [hout, hfail]
    refine ⟨by simp; exact ⟨0, by omega, by omega⟩, ?_⟩
    intro i hi
    interval_cases i <;> simp [RateLimiter.stageBucket]
  · by_cases h1 : r.stageTokens now endpoint region 1 = 0
    · have hfail : r.failIdx now endpoint region = 1 := by
        simp [RateLimiter.failIdx, h0, h1]
      have hc0 : 1 ≤ (r.application_limiter_per_second.refill now).tokens := by omega
      have hc1 : ¬ 1 ≤ (r.application_limiter_per_two_minutes.refill now).tokens := by omega
      have hout : r.try_acquire_all now endpoint region =
          (false, { r with
            application_limiter_per_second :=
              { r.application_limiter_per_second.refill now with
                  tokens := (r.application_limiter_per_second.refill now).tokens - 1 }
            application_limiter_per_two_minutes :=
              r.application_limiter_per_two_minutes.refill now }) := by
        simp [RateLimiter.try_acquire_all, TokenBucket.try_acquire_one, hc0, hc1]
      rw [hout, hfail]
      refine ⟨by simp; exact ⟨1, by omega, by omega⟩, ?_⟩
      intro i hi
      interval_cases i <;> simp [RateLimiter.stageBucket]
    · by_cases h2 : r.stageTokens now endpoint region 2 = 0
      · have hfail : r.failIdx now endpoint region = 2 := by
          simp [RateLimiter.failIdx, h0, h1, h2]
        have hc0 : 1 ≤ (r.application_limiter_per_second.refill now).tokens := by omega
        have hc1 : 1 ≤ (r.application_limiter_per_two_minutes.refill now).tokens := by omega
        have hc2 : ¬ 1 ≤ ((lookupBucket r.method_limiters (endpoint ++ ":" ++ region)
            (RateLimiter.defaultMethodBucket now)).refill now).tokens := by omega
        have hout : r.try_acquire_all now endpoint region =
            (false, { r with
              application_limiter_per_second :=
                { r.application_limiter_per_second.refill now with
                    tokens := (r.application_limiter_per_second.refill now).tokens - 1 }
              application_limiter_per_two_minutes :=
                { r.application_limiter_per_two_minutes.refill now with
                    tokens := (r.application_limiter_per_two_minutes.refill now).tokens - 1 }
              method_limiters := setBucket r.method_limiters (endpoint ++ ":" ++ region)
                ((lookupBucket r.method_limiters (endpoint ++ ":" ++ region)
                  (RateLimiter.defaultMethodBucket now)).refill now) }) := by
          simp [RateLimiter.try_acquire_all, TokenBucket.try_acquire_one, hc0, hc1, hc2]
        rw [hout, hfail]
        refine ⟨by simp; exact ⟨2, by omega, by omega⟩, ?_⟩
        intro i hi
        interval_cases i <;>
          simp [RateLimiter.stageBucket, lookupBucket_setBucket_same]
      · by_cases h3 : r.stageTokens now endpoint region 3 = 0
        · have hfail : r.failIdx now endpoint region = 3 := by
            simp [RateLimiter.failIdx, h0, h1, h2, h3]
          have hc0 : 1 ≤ (r.application_limiter_per_second.refill now).tokens := by omega
          have hc1 : 1 ≤ (r.application_limiter_per_two_minutes.refill now).tokens := by omega
          have hc2 : 1 ≤ ((lookupBucket r.method_limiters (endpoint ++ ":" ++ region)
              (RateLimiter.defaultMethodBucket now)).refill now).tokens := by omega
          have hc3 : ¬ 1 ≤ ((lookupBucket r.service_limiters
              (RateLimiter.extract_service_from_endpoint endpoint ++ ":" ++ region)
              (RateLimiter.defaultServiceBucket now)).refill now).tokens := by omega
          have hout : r.try_acquire_all now endpoint region =
              (false, { r with
                application_limiter_per_second :=
                  { r.application_limiter_per_second.refill now with
                      tokens := (r.application_limiter_per_second.refill now).tokens - 1 }
                application_limiter_per_two_minutes :=
                  { r.application_limiter_per_two_minutes.refill now with
                      tokens := (r.application_limiter_per_two_minutes.refill now).tokens - 1 }
                method_limiters := setBucket r.method_limiters (endpoint ++ ":" ++ region)
                  { (lookupBucket r.method_limiters (endpoint ++ ":" ++ region)
                      (RateLimiter.defaultMethodBucket now)).refill now with
                    tokens := ((lookupBucket r.method_limiters (endpoint ++ ":" ++ region)
                      (RateLimiter.defaultMethodBucket now)).refill now).tokens - 1 }
                service_limiters := setBucket r.service_limiters
                  (RateLimiter.extract_service_from_endpoint endpoint ++ ":" ++ region)
                  ((lookupBucket r.service_limiters
                    (RateLimiter.extract_service_from_endpoint endpoint ++ ":" ++ region)
                    (RateLimiter.defaultServiceBucket now)).refill now) }) := by
            simp [RateLimiter.try_acquire_all, TokenBucket.try_acquire_one, hc0, hc1, hc2, hc3]
          rw [hout, hfail]
          refine ⟨by simp; exact ⟨3, by omega, by omega⟩, ?_⟩
          intro i hi
          interval_cases i <;>
            simp [RateLimiter.stageBucket, lookupBucket_setBucket_same]
        · have hfail : r.failIdx now endpoint region = 4 := by
            simp [RateLimiter.failIdx, h0, h1, h2, h3]
          have hc0 : 1 ≤ (r.application_limiter_per_second.refill now).tokens := by omega
          have hc1 : 1 ≤ (r.application_limiter_per_two_minutes.refill now).tokens := by omega
          have hc2 : 1 ≤ ((lookupBucket r.method_limiters (endpoint ++ ":" ++ region)
              (RateLimiter.defaultMethodBucket now)).refill now).tokens := by omega
          have hc3 : 1 ≤ ((lookupBucket r.service_limiters
              (RateLimiter.extract_service_from_endpoint endpoint ++ ":" ++ region)
              (RateLimiter.defaultServiceBucket now)).refill now).tokens := by omega
          have hout : r.try_acquire_all now endpoint region =
              (true, { r with
                application_limiter_per_second :=
                  { r.application_limiter_per_second.refill now with
                      tokens := (r.application_limiter_per_second.refill now).tokens - 1 }
                application_limiter_per_two_minutes :=
                  { r.application_limiter_per_two_minutes.refill now with
                      tokens := (r.application_limiter_per_two_minutes.refill now).tokens - 1 }
                method_limiters := setBucket r.method_limiters (endpoint ++ ":" ++ region)
                  { (lookupBucket r.method_limiters (endpoint ++ ":" ++ region)
                      (RateLimiter.defaultMethodBucket now)).refill now with
                    tokens := ((lookupBucket r.method_limiters (endpoint ++ ":" ++ region)
                      (RateLimiter.defaultMethodBucket now)).refill now).tokens - 1 }
                service_limiters := setBucket r.service_limiters
                  (RateLimiter.extract_service_from_endpoint endpoint ++ ":" ++ region)
                  { (lookupBucket r.service_limiters
                      (RateLimiter.extract_service_from_endpoint endpoint ++ ":" ++ region)
                      (RateLimiter.defaultServiceBucket now)).refill now with
                    tokens := ((lookupBucket r.service_limiters
                      (RateLimiter.extract_service_from_endpoint endpoint ++ ":" ++ region)
                      (RateLimiter.defaultServiceBucket now)).refill now).tokens - 1 } }) := by
            simp [RateLimiter.try_acquire_all, TokenBucket.try_acquire_one, hc0, hc1, hc2, hc3]
          rw [hout, hfail]
          refine ⟨by simp; intro i hi; interval_cases i <;> omega, ?_⟩
          intro i hi
          interval_cases i <;>
            simp [RateLimiter.stageBucket, lookupBucket_setBucket_same]

/-- Concrete rate limiter used to witness `tryAcquireAll_chain`. -/
def wLimiter : RateLimiter := RateLimiter.new ⟨20, 100, 10, 1000, 3⟩ 0

theorem tryAcquireAll_chain_witness :
    (2 : Nat) < 4 ∧
    (wLimiter.try_acquire_all 5 "/lol/match/v5/m" "na1").2.stageBucket 5 "/lol/match/v5/m" "na1" 2 =
      (if 2 < wLimiter.failIdx 5 "/lol/match/v5/m" "na1" then
        { (wLimiter.stageBucket 5 "/lol/match/v5/m" "na1" 2).refill 5 with
            tokens := ((wLimiter.stageBucket 5 "/lol/match/v5/m" "na1" 2).refill 5).tokens - 1 }
      else if 2 = wLimiter.failIdx 5 "/lol/match/v5/m" "na1" then
        (wLimiter.stageBucket 5 "/lol/match/v5/m" "na1" 2).refill 5
      else wLimiter.stageBucket 5 "/lol/match/v5/m" "na1" 2) :=
  ⟨by decide, (tryAcquireAll_chain wLimiter 5 "/lol/match/v5/m" "na1").2 2 (by decide)⟩

/-! ## ApiError and the gateway status dispatch (src/api/error.rs, src/api/client.rs)

`make_request`'s post-response handling is a pure function of the HTTP
status code, the response body and the parsed `Retry-After` header; the
side call `handle_429_response(retry_after)` is recorded in the result so
that its argument can be observed.  The `Http` constructor keeps the two
booleans `is_timeout()` / `is_connect()` that `is_retryable` inspects. -/

inductive ApiError where
  | Http (timeout : Bool) (connect : Bool)
  | RateLimit
  | Authentication
  | NotFound
  | ServiceUnavailable
  | BadRequest (msg : String)
  | Json
  | RateLimiterFailed (msg : String)
  | Api (status : Nat) (message : String)
  | Unknown (msg : String)
  deriving Repr, DecidableEq

namespace ApiError

/-- `ApiError::is_retryable`. -/
def is_retryable : ApiError → Bool
  | .RateLimit => true
  | .ServiceUnavailable => true
  | .Http t c => t || c
  | .Api status _ =>
      status = 429 || status = 500 || status = 502 || status = 503 || status = 504
  | _ => false

end ApiError

/-- Outcome of the status dispatch at the end of `make_request`: the mapped
result, plus the argument `handle_429_response` was invoked with (`none`
when it was not invoked at all). -/
structure DispatchOutcome where
  result : Except ApiError Unit
  handle429 : Option (Option Nat)
  deriving Repr

/-- The `match response.status().as_u16()` arm of `RiotApiClient::make_request`
(client.rs lines 90–112).  `status` is the HTTP status code, `body` the
response text, `retryAfter` the already-parsed `Retry-After` header. -/
def makeRequestDispatch (status : Nat) (body : String) (retryAfter : Option Nat) :
    DispatchOutcome :=
  if status = 200 then ⟨.ok (), none⟩
  else if status = 400 then ⟨.error (.BadRequest body), none⟩
  else if status = 401 ∨ status = 403 then ⟨.error .Authentication, none⟩
  else if status = 404 then ⟨.error .NotFound, none⟩
  else if status = 429 then ⟨.error .RateLimit, some retryAfter⟩
  else if 500 ≤ status ∧ status ≤ 599 then ⟨.error .ServiceUnavailable, none⟩
  else ⟨.error (.Api status body), none⟩

/-- C2: the gateway maps the response status exactly as specified: 200 is the
only success; 400 becomes the non-retryable `BadRequest` carrying the body;
401/403 become the non-retryable `Authentication`; 404 the non-retryable
`NotFound`; 429 becomes the retryable `RateLimit` with `handle429` invoked
on the parsed `Retry-After` value; every 5xx becomes the retryable
`ServiceUnavailable`; anything else becomes `Api` with that status and
body. -/
theorem makeRequest_status_mapping (status : Nat) (body : String) (retryAfter : Option Nat) :
    (makeRequestDispatch 200 body retryAfter = ⟨.ok (), none⟩) ∧
    (makeRequestDispatch 400 body retryAfter = ⟨.error (.BadRequest body), none⟩ ∧
      (ApiError.BadRequest body).is_retryable = false) ∧
    (status = 401 ∨ status = 403 →
      makeRequestDispatch status body retryAfter = ⟨.error .Authentication, none⟩ ∧
      ApiError.Authentication.is_retryable = false) ∧
    (makeRequestDispatch 404 body retryAfter = ⟨.error .NotFound, none⟩ ∧
      ApiError.NotFound.is_retryable = false) ∧
    (makeRequestDispatch 429 body retryAfter = ⟨.error .RateLimit, some retryAfter⟩ ∧
      ApiError.RateLimit.is_retryable = true) ∧
    (500 ≤ status → status ≤ 599 →
      makeRequestDispatch status body retryAfter = ⟨.error .ServiceUnavailable, none⟩ ∧
      ApiError.ServiceUnavailable.is_retryable = true) ∧
    (status ≠ 200 → status ≠ 400 → status ≠ 401 → status ≠ 403 → status ≠ 404 →
      status ≠ 429 → ¬ (500 ≤ status ∧ status ≤ 599) →
      makeRequestDispatch status body retryAfter = ⟨.error (.Api status body), none⟩) := by
  refine ⟨rfl, ⟨rfl, rfl⟩, ?_, ⟨rfl, rfl⟩, ⟨rfl, rfl⟩, ?_, ?_⟩
  · rintro (h | h) <;> subst h <;> exact ⟨rfl, rfl⟩
  · intro h5 h9
    refine ⟨?_, rfl⟩
    unfold makeRequestDispatch
    have : status ≠ 200 := by omega
    have : status ≠ 400 := by omega
    have : ¬ (status = 401 ∨ status = 403) := by omega
    have : status ≠ 404 := by omega
    have : status ≠ 429 := by omega
    simp_all
  · intro h1 h2 h3 h4 h5 h6 h7
    unfold makeRequestDispatch
    have : ¬ (status = 401 ∨ status = 403) := by omega
    simp_all

theorem makeRequest_status_mapping_witness :
    (403 = 401 ∨ (403 : Nat) = 403) ∧
    (makeRequestDispatch 403 "b" none = ⟨.error .Authentication, none⟩ ∧
      ApiError.Authentication.is_retryable = false) :=
  ⟨by decide, ((makeRequest_status_mapping 403 "b" none).2.2.1 (by decide))⟩

/-! ## PriorityQueue (src/crawler/queue.rs) and task model (src/models/database.rs) -/

inductive SummonerPriority where
  | High
  | Medium
  | Low
  deriving Repr, DecidableEq

structure SummonerTask where
  puuid : String
  summoner_name : String
  region : String
  priority : SummonerPriority
  added_at : Nat
  retries : Nat
  deriving Repr, DecidableEq

structure SummonerQueue where
  high_priority : List SummonerTask
  medium_priority : List SummonerTask
  low_priority : List SummonerTask
  deriving Repr, DecidableEq

namespace SummonerQueue

/-- `SummonerQueue::new`. -/
def new : SummonerQueue := ⟨[], [], []⟩

/-- `SummonerQueue::push`: append to the band named by the task's priority. -/
def push (q : SummonerQueue) (task : SummonerTask) : SummonerQueue :=
  match task.priority with
  | .High => { q with high_priority := q.high_priority ++ [task] }
  | .Medium => { q with medium_priority := q.medium_priority ++ [task] }
  | .Low => { q with low_priority := q.low_priority ++ [task] }

/-- `SummonerQueue::push_batch`: partition by priority (preserving order),
then append each partition to its band. -/
def push_batch (q : SummonerQueue) (tasks : List SummonerTask) : SummonerQueue :=
  let high_tasks := tasks.filter fun t => decide (t.priority = .High)
  let medium_tasks := tasks.filter fun t => decide (t.priority = .Medium)
  let low_tasks := tasks.filter fun t => decide (t.priority = .Low)
  { q with high_priority := q.high_priority ++ high_tasks
           medium_priority := q.medium_priority ++ medium_tasks
           low_priority := q.low_priority ++ low_tasks }

/-- `SummonerQueue::pop`: front of High, else Medium, else Low, else none.
The popped task is returned together with the remaining queue. -/
def pop (q : SummonerQueue) : Option (SummonerTask × SummonerQueue) :=
  match q.high_priority with
  | t :: rest => some (t, { q with high_priority := rest })
  | [] =>
    match q.medium_priority with
    | t :: rest => some (t, { q with medium_priority := rest })
    | [] =>
      match q.low_priority with
      | t :: rest => some (t, { q with low_priority := rest })
      | [] => none

/-- `SummonerQueue::total_size`. -/
def total_size (q : SummonerQueue) : Nat :=
  q.high_priority.length + q.medium_priority.length + q.low_priority.length

/-- `SummonerQueue::is_empty`. -/
def is_empty (q : SummonerQueue) : Bool := q.total_size = 0

theorem pop_some_size {q : SummonerQueue} {t : SummonerTask} {q' : SummonerQueue}
    (h : q.pop = some (t, q')) : q'.total_size + 1 = q.total_size := by
  obtain ⟨hh, m, l⟩ := q
  rcases hh with _ | ⟨t1, hrest⟩ <;> rcases m with _ | ⟨t2, mrest⟩ <;>
    rcases l with _ | ⟨t3, lrest⟩ <;>
    simp only [pop] at h <;> first
    | · injection h with h'
        injection h' with h1 h2
        subst h2
        simp only [total_size, List.length_cons, List.length_nil] <;> omega
    | exact absurd h (by simp)

/-- Repeatedly pop until the queue is exhausted (the order in which the
worker loop consumes a fixed queue). -/
def drain (q : SummonerQueue) : List SummonerTask :=
  match h : q.pop with
  | none => []
  | some (t, q') => t :: drain q'
termination_by q.total_size
decreasing_by
  have := pop_some_size h
  omega

/-- Push a whole sequence of tasks into the empty queue. -/
def pushAll (tasks : List SummonerTask) : SummonerQueue :=
  tasks.foldl push new

end SummonerQueue

namespace SummonerQueue

theorem foldl_push_bands (ts : List SummonerTask) (q : SummonerQueue) :
    (ts.foldl push q).high_priority =
      q.high_priority ++ ts.filter (fun t => decide (t.priority = .High)) ∧
    (ts.foldl push q).medium_priority =
      q.medium_priority ++ ts.filter (fun t => decide (t.priority = .Medium)) ∧
    (ts.foldl push q).low_priority =
      q.low_priority ++ ts.filter (fun t => decide (t.priority = .Low)) := by
  induction ts generalizing q with
  | nil => simp
  | cons t rest ih =>
      obtain ⟨ih1, ih2, ih3⟩ := ih (push q t)
      cases hp : t.priority <;>
        simp_all [push, List.filter_cons, hp]

theorem drain_high_cons (t : SummonerTask) (h m l : List SummonerTask) :
    drain ⟨t :: h, m, l⟩ = t :: drain ⟨h, m, l⟩ := by
  conv_lhs => rw [drain]
  simp [pop]

theorem drain_medium_cons (t : SummonerTask) (m l : List SummonerTask) :
    drain ⟨[], t :: m, l⟩ = t :: drain ⟨[], m, l⟩ := by
  conv_lhs => rw [drain]
  simp [pop]

theorem drain_low_cons (t : SummonerTask) (l : List SummonerTask) :
    drain ⟨[], [], t :: l⟩ = t :: drain ⟨[], [], l⟩ := by
  conv_lhs => rw [drain]
  simp [pop]

theorem drain_nil : drain ⟨[], [], []⟩ = [] := by
  rw [drain]
  simp [pop]

theorem drain_eq (q : SummonerQueue) :
    drain q = q.high_priority ++ q.medium_priority ++ q.low_priority := by
  obtain ⟨h, m, l⟩ := q
  induction h with
  | cons t rest ih => simpa [drain_high_cons] using ih
  | nil =>
      induction m with
      | cons t rest ih => simpa [drain_medium_cons] using ih
      | nil =>
          induction l with
          | cons t rest ih => simpa [drain_low_cons] using ih
          | nil => simp [drain_nil]

end SummonerQueue

/-- C4: draining a queue built by any sequence of pushes returns every
High task before any Medium task and every Medium before any Low, each
band in exactly push order; and `pop` returns none iff all three bands are
empty. -/
theorem queue_priority_fifo :
    (∀ ts : List SummonerTask,
      SummonerQueue.drain (SummonerQueue.pushAll ts) =
        ts.filter (fun t => decide (t.priority = .High)) ++
        ts.filter (fun t => decide (t.priority = .Medium)) ++
        ts.filter (fun t => decide (t.priority = .Low))) ∧
    (∀ q : SummonerQueue, q.pop = none ↔
      q.high_priority = [] ∧ q.medium_priority = [] ∧ q.low_priority = []) := by
  constructor
  · intro ts
    obtain ⟨h1, h2, h3⟩ := SummonerQueue.foldl_push_bands ts SummonerQueue.new
    rw [SummonerQueue.pushAll, SummonerQueue.drain_eq, h1, h2, h3]
    simp [SummonerQueue.new]
  · intro q
    obtain ⟨h, m, l⟩ := q
    rcases h with _ | ⟨t1, hrest⟩ <;> rcases m with _ | ⟨t2, mrest⟩ <;>
      rcases l with _ | ⟨t3, lrest⟩ <;> simp [SummonerQueue.pop]

namespace SummonerQueue

/-- `SummonerQueue::remove_duplicates_from_queue`: pop every task in order,
keeping a task only when its puuid was not seen before (the `HashSet`
`seen` is modelled as the list of puuids inserted so far). -/
def remove_duplicates_from_queue : List SummonerTask → List String → List SummonerTask
  | [], _ => []
  | t :: ts, seen =>
      if t.puuid ∈ seen then remove_duplicates_from_queue ts seen
      else t :: remove_duplicates_from_queue ts (t.puuid :: seen)

/-- `SummonerQueue::remove_duplicates`: dedupe each band independently. -/
def remove_duplicates (q : SummonerQueue) : SummonerQueue :=
  { high_priority := remove_duplicates_from_queue q.high_priority []
    medium_priority := remove_duplicates_from_queue q.medium_priority []
    low_priority := remove_duplicates_from_queue q.low_priority [] }

end SummonerQueue

/-- Spec-side transcription for C8: keep, for every pid, exactly the
first-occurrence task bearing that pid, preserving the relative order. -/
def firstOcc : List SummonerTask → List SummonerTask
  | [] => []
  | t :: ts => t :: firstOcc (ts.filter fun u => decide (u.puuid ≠ t.puuid))
termination_by l => l.length
decreasing_by
  simp only [List.length_cons]
  exact Nat.lt_succ_of_le (List.length_filter_le _ _)

theorem remove_duplicates_from_queue_eq_firstOcc (l : List SummonerTask) (seen : List String) :
    SummonerQueue.remove_duplicates_from_queue l seen =
      firstOcc (l.filter fun t => decide (t.puuid ∉ seen)) := by
  induction l generalizing seen with
  | nil => simp [SummonerQueue.remove_duplicates_from_queue, firstOcc]
  | cons t ts ih =>
      by_cases h : t.puuid ∈ seen
      · rw [SummonerQueue.remove_duplicates_from_queue, if_pos h, ih seen]
        simp [List.filter_cons, h]
      · rw [SummonerQueue.remove_duplicates_from_queue, if_neg h, ih (t.puuid :: seen)]
        rw [List.filter_cons]
        have hd : (decide (t.puuid ∉ seen)) = true := by simp [h]
        rw [hd, if_pos rfl]
        conv_rhs => rw [firstOcc]
        congr 1
        rw [List.filter_filter]
        congr 1
        apply List.filter_congr
        intro u _
        by_cases hu : u.puuid = t.puuid <;> simp [hu, h]

theorem firstOcc_filter_comm (l : List SummonerTask) :
    ∀ p : String → Bool,
      (firstOcc l).filter (fun t => p t.puuid) = firstOcc (l.filter (fun t => p t.puuid)) := by
  induction l using firstOcc.induct with
  | case1 => intro p; simp [firstOcc]
  | case2 t ts ih =>
      intro p
      rw [firstOcc, List.filter_cons, List.filter_cons]
      by_cases hp : p t.puuid
      · simp only [hp, if_pos]
        conv_rhs => rw [firstOcc]
        congr 1
        rw [ih p, List.filter_filter, List.filter_filter]
        congr 1
        apply List.filter_congr
        intro u _
        exact Bool.and_comm _ _
      · simp only [hp, Bool.false_eq_true, if_neg, not_false_eq_true]
        rw [ih p, List.filter_filter]
        congr 1
        apply List.filter_congr
        intro u _
        by_cases hu : p u.puuid
        · have : u.puuid ≠ t.puuid := fun he => hp (he ▸ hu)
          simp [hu, this]
        · simp [hu]

theorem firstOcc_idem (l : List SummonerTask) : firstOcc (firstOcc l) = firstOcc l := by
  induction l using firstOcc.induct with
  | case1 => simp [firstOcc]
  | case2 t ts ih =>
      conv_lhs => rw [firstOcc]
      conv_rhs => rw [firstOcc]
      rw [firstOcc]
      congr 1
      rw [firstOcc_filter_comm (ts.filter fun u => decide (u.puuid ≠ t.puuid))
        (fun s => decide (s ≠ t.puuid))]
      rw [List.filter_filter]
      have hff : (List.filter (fun a => decide (a.puuid ≠ t.puuid) && decide (a.puuid ≠ t.puuid)) ts)
      = ts.filter fun u => decide (u.puuid ≠ t.puuid) := by
        apply List.filter_congr
        intro u _
        exact Bool.and_self _
      rw [hff]
      exact ih

theorem firstOcc_sublist (l : List SummonerTask) : List.Sublist (firstOcc l) l := by
  induction l using firstOcc.induct with
  | case1 => simp [firstOcc]
  | case2 t ts ih =>
      rw [firstOcc]
      exact List.Sublist.cons₂ t (ih.trans (List.filter_sublist ts))

/-- C8: `removeDuplicates` is idempotent, and each band keeps exactly the
first-occurrence task for every pid, in their original relative order
(each deduplicated band is the first-occurrence subsequence of the
original band). -/
theorem removeDuplicates_idempotent_first_occurrence :
    (∀ q : SummonerQueue,
      SummonerQueue.remove_duplicates (SummonerQueue.remove_duplicates q) =
        SummonerQueue.remove_duplicates q) ∧
    (∀ q : SummonerQueue,
      (SummonerQueue.remove_duplicates q).high_priority = firstOcc q.high_priority ∧
      (SummonerQueue.remove_duplicates q).medium_priority = firstOcc q.medium_priority ∧
      (SummonerQueue.remove_duplicates q).low_priority = firstOcc q.low_priority) ∧
    (∀ l : List SummonerTask, List.Sublist (firstOcc l) l) := by
  have hband : ∀ l : List SummonerTask,
      SummonerQueue.remove_duplicates_from_queue l [] = firstOcc l := by
    intro l
    rw [remove_duplicates_from_queue_eq_firstOcc]
    congr 1
    simp
  refine ⟨?_, ?_, firstOcc_sublist⟩
  · intro q
    simp only [SummonerQueue.remove_duplicates, hband]
    simp [firstOcc_idem]
  · intro q
    exact ⟨hband _, hband _, hband _⟩

/-! ## Worker (src/crawler/worker.rs) and the engine's task-result handling
(src/crawler/engine.rs, `spawn_crawler_task`)

The worker's collaborators (API client and store) are abstracted as an
oracle environment: each call site is a field holding the outcome that the
call would produce.  `fetch_and_store_summoner`'s outcome is recorded but
— exactly as at worker.rs lines 25–31 — never affects the result.  The
`HashSet` of discovered `(puuid, name)` pairs is modelled as a list with
insertion-order iteration and duplicate suppression. -/

structure WorkerEnv where
  summoner_fetch : Except ApiError Unit
  match_list : Except ApiError (List String)
  match_exists : String → Except String Bool
  match_fetch : String → Except ApiError (List (String × String))
  summoner_exists : String → Except String Bool

/-- `HashSet::insert` of one `(puuid, name)` pair. -/
def insertNew (acc : List (String × String)) (d : String × String) :
    List (String × String) :=
  if d ∈ acc then acc else acc ++ [d]

/-- `HashSet::extend` with the pairs discovered in one match. -/
def insertNews (acc : List (String × String)) (ds : List (String × String)) :
    List (String × String) :=
  ds.foldl insertNew acc

/-- The worker's per-match loop (worker.rs lines 52–68): skip matches that
already exist, accumulate participants of freshly fetched matches, swallow
per-match fetch failures, propagate store failures. -/
def collect_matches (env : WorkerEnv) :
    List String → List (String × String) → Except String (List (String × String))
  | [], acc => .ok acc
  | mid :: rest, acc =>
      match env.match_exists mid with
      | .error e => .error e
      | .ok true => collect_matches env rest acc
      | .ok false =>
          match env.match_fetch mid with
          | .ok ds => collect_matches env rest (insertNews acc ds)
          | .error _ => collect_matches env rest acc

/-- `CrawlerWorker::process_summoner`.  Note the match-list arm: a failed
match-list fetch is logged and the function returns `Ok(Vec::new())`
(worker.rs lines 41–44). -/
def process_summoner (env : WorkerEnv) (task : SummonerTask) (now : Nat) :
    Except String (List SummonerTask) :=
  match env.match_list with
  | .error _ => .ok []
  | .ok match_ids =>
      match collect_matches env match_ids [] with
      | .error e => .error e
      | .ok discovered =>
          .ok ((discovered.filter fun d =>
              match env.summoner_exists d.1 with
              | .ok b => !b
              | .error _ => true).map fun d =>
            { puuid := d.1
              summoner_name := d.2
              region := task.region
              priority := .Low
              added_at := now
              retries := 0 })

/-- The engine's handling of one worker result (engine.rs lines 268–307):
push discoveries on success; on failure re-enqueue a demoted clone while
`retries < 3`. -/
def engine_handle_result (q : SummonerQueue) (task : SummonerTask)
    (res : Except String (List SummonerTask)) : SummonerQueue :=
  match res with
  | .ok new_tasks => if new_tasks.isEmpty then q else q.push_batch new_tasks
  | .error _ =>
      if task.retries < 3 then
        q.push { task with retries := task.retries + 1, priority := .Low }
      else q

/-- Concrete task used for the C5 scenario. -/
def c5Task : SummonerTask :=
  { puuid := "p1", summoner_name := "Player1", region := "na1"
    priority := .Medium, added_at := 0, retries := 0 }

/-- Concrete worker environment whose match-list fetch fails. -/
def c5Env : WorkerEnv :=
  { summoner_fetch := .ok ()
    match_list := .error .NotFound
    match_exists := fun _ => .ok false
    match_fetch := fun _ => .ok []
    summoner_exists := fun _ => .ok false }

/-- C5 counterexample: with a failing match-list fetch `process_summoner`
returns `Ok` with an empty list — the fetch error is NOT surfaced to the
engine — and the engine's result handling consequently leaves the queue
unchanged: no demoted retry clone is enqueued, so the 3-retry accounting
never observes the failure. -/
theorem processSummoner_swallows_matchlist_error :
    c5Env.match_list = .error .NotFound ∧
    process_summoner c5Env c5Task 0 = .ok [] ∧
    (process_summoner c5Env c5Task 0).isOk = true ∧
    engine_handle_result SummonerQueue.new c5Task (process_summoner c5Env c5Task 0) =
      SummonerQueue.new :=
  ⟨rfl, rfl, rfl, rfl⟩

/-- C5 (amended): when the match-list fetch fails, `process_summoner`
returns an empty discovery list with success (`Ok`); the fetch error is
only logged, so the engine's retry accounting does not observe the failure
and the task is not re-enqueued. -/
theorem processSummoner_matchlist_failure (env : WorkerEnv) (task : SummonerTask)
    (now : Nat) (e : ApiError) (h : env.match_list = .error e) (q : SummonerQueue) :
    process_summoner env task now = .ok [] ∧
    engine_handle_result q task (process_summoner env task now) = q := by
  unfold process_summoner
  rw [h]
  exact ⟨rfl, rfl⟩

theorem processSummoner_matchlist_failure_witness :
    c5Env.match_list = .error ApiError.NotFound ∧
    (process_summoner c5Env c5Task 1 = .ok [] ∧
      engine_handle_result SummonerQueue.new c5Task (process_summoner c5Env c5Task 1) =
        SummonerQueue.new) :=
  ⟨rfl, processSummoner_matchlist_failure c5Env c5Task 1 ApiError.NotFound rfl SummonerQueue.new⟩

/-! ## Engine start-up seeding (src/crawler/engine.rs)

`start` flips the running flag and then calls `seed_with_featured_games`,
which iterates the configured regions: per region it tries the featured
games endpoint, extracting unseen participants as High-priority tasks, and
only on a featured-games error falls back to the master league (first 50
entries, High priority, synthesized display name).  API and store
collaborators are oracle fields; `store_players_for_update` records what
`get_existing_summoners_for_update(1000)` would return — the engine never
queries it.  The `insert_active_game` side effect (errors logged and
swallowed) and the practically infallible `serde_json::to_string` are not
modelled. -/

structure FParticipant where
  puuid : Option String
  summoner_name : String
  deriving Repr, DecidableEq

structure EngineEnv where
  regions : List String
  featured : String → Except ApiError (List (List FParticipant))
  master_league : String → Except ApiError (List String)
  summoner_exists : String → Except String Bool
  store_players_for_update : List (String × String)

/-- `CrawlerEngine::extract_summoners_from_featured_games`: every
participant with a puuid that is not already stored (or whose existence
check failed) becomes a High-priority task. -/
def extract_featured (exists_q : String → Except String Bool)
    (games : List (List FParticipant)) (region : String) (now : Nat) :
    List SummonerTask :=
  (games.map fun game =>
    game.filterMap fun p =>
      match p.puuid with
      | none => none
      | some pu =>
          match exists_q pu with
          | .ok true => none
          | _ => some { puuid := pu, summoner_name := p.summoner_name
                        region := region, priority := .High
                        added_at := now, retries := 0 }).flatten

/-- `CrawlerEngine::extract_summoners_from_master_league`: first 50
entries, unseen pids only, High priority, synthesized display name from
the first 8 characters of the pid. -/
def extract_master (master : Except ApiError (List String))
    (exists_q : String → Except String Bool) (region : String) (now : Nat) :
    Except ApiError (List SummonerTask) :=
  match master with
  | .error e => .error e
  | .ok entries =>
      .ok ((entries.take 50).filterMap fun pu =>
        match exists_q pu with
        | .ok true => none
        | _ => some { puuid := pu
                      summoner_name := "Master_Player_" ++ pu.take 8
                      region := region, priority := .High
                      added_at := now, retries := 0 })

/-- `CrawlerEngine::process_featured_games_for_region`: featured games
first, master-league fallback on error; the extracted batch is pushed when
non-empty. -/
def process_featured_games_for_region (env : EngineEnv) (q : SummonerQueue)
    (region : String) (now : Nat) : Except ApiError SummonerQueue :=
  match env.featured region with
  | .ok games =>
      let tasks := extract_featured env.summoner_exists games region now
      .ok (if tasks.isEmpty then q else q.push_batch tasks)
  | .error _ =>
      match extract_master (env.master_league region) env.summoner_exists region now with
      | .ok tasks => .ok (if tasks.isEmpty then q else q.push_batch tasks)
      | .error e => .error e

/-- `CrawlerEngine::seed_with_featured_games`: per-region seeding; a
region whose seeding fails is logged and skipped. -/
def seed_with_featured_games (env : EngineEnv) (q : SummonerQueue) (now : Nat) :
    SummonerQueue :=
  env.regions.foldl
    (fun q region =>
      match process_featured_games_for_region env q region now with
      | .ok q' => q'
      | .error _ => q)
    q

/-- The batch of tasks one region contributes to the seed. -/
def seedRegionTasks (env : EngineEnv) (region : String) (now : Nat) :
    List SummonerTask :=
  match env.featured region with
  | .ok games => extract_featured env.summoner_exists games region now
  | .error _ =>
      match extract_master (env.master_league region) env.summoner_exists region now with
      | .ok tasks => tasks
      | .error _ => []

theorem push_batch_nil (q : SummonerQueue) : q.push_batch [] = q := by
  simp [SummonerQueue.push_batch]

theorem push_batch_append (q : SummonerQueue) (a b : List SummonerTask) :
    (q.push_batch a).push_batch b = q.push_batch (a ++ b) := by
  simp [SummonerQueue.push_batch, List.filter_append, List.append_assoc]

theorem process_region_step (env : EngineEnv) (q : SummonerQueue)
    (region : String) (now : Nat) :
    (match process_featured_games_for_region env q region now with
      | .ok q' => q'
      | .error _ => q) = q.push_batch (seedRegionTasks env region now) := by
  unfold process_featured_games_for_region seedRegionTasks
  cases hf : env.featured region with
  | ok games =>
      by_cases he : (extract_featured env.summoner_exists games region now).isEmpty
      · rw [List.isEmpty_iff] at he
        simp [he, push_batch_nil]
      · simp [he]
  | error e =>
      cases hm : extract_master (env.master_league region) env.summoner_exists region now with
      | ok tasks =>
          by_cases he : tasks.isEmpty
          · rw [List.isEmpty_iff] at he
            simp [he, push_batch_nil]
          · simp [he]
      | error e' => simp [push_batch_nil]

theorem seed_eq_push_batch (env : EngineEnv) (now : Nat) :
    ∀ (regions : List String) (q : SummonerQueue),
      ({ env with regions := regions } : EngineEnv).regions.foldl
        (fun q region =>
          match process_featured_games_for_region env q region now with
          | .ok q' => q'
          | .error _ => q) q =
      q.push_batch ((regions.map fun r => seedRegionTasks env r now).flatten) := by
  intro regions
  induction regions with
  | nil => intro q; simp [push_batch_nil]
  | cons r rest ih =>
      intro q
      simp only [List.foldl_cons, List.map_cons, List.flatten_cons]
      rw [process_region_step, ih, push_batch_append]

theorem extract_featured_priority (exq : String → Except String Bool)
    (games : List (List FParticipant)) (region : String) (now : Nat) :
    ∀ t ∈ extract_featured exq games region now, t.priority = SummonerPriority.High := by
  intro t ht
  simp only [extract_featured, List.mem_flatten, List.mem_map] at ht
  obtain ⟨l, ⟨game, hg, rfl⟩, htl⟩ := ht
  rw [List.mem_filterMap] at htl
  obtain ⟨p, hp, hfp⟩ := htl
  rcases hpu : p.puuid with _ | pu <;> rw [hpu] at hfp <;> dsimp only at hfp
  · cases hfp
  · rcases hex : exq pu with e | b <;> rw [hex] at hfp <;> (try dsimp only at hfp)
    · obtain rfl := Option.some.inj hfp
      rfl
    · cases b <;> (try dsimp only at hfp)
      · obtain rfl := Option.some.inj hfp
        rfl
      · cases hfp

theorem extract_master_ok_shape (master : Except ApiError (List String))
    (exq : String → Except String Bool) (region : String) (now : Nat)
    (tasks : List SummonerTask)
    (h : extract_master master exq region now = .ok tasks) :
    tasks.length ≤ 50 ∧
    ∀ t ∈ tasks, t.priority = SummonerPriority.High ∧
      t.summoner_name = "Master_Player_" ++ t.puuid.take 8 := by
  rcases master with e | entries <;> simp only [extract_master] at h
  · cases h
  · obtain rfl := Except.ok.inj h
    constructor
    · calc ((entries.take 50).filterMap _).length
          ≤ (entries.take 50).length := List.length_filterMap_le _ _
        _ ≤ 50 := by simpa using List.length_take_le 50 entries
    · intro t ht
      rw [List.mem_filterMap] at ht
      obtain ⟨pu, hpu, hf⟩ := ht
      rcases hex : exq pu with e | b <;> rw [hex] at hf <;> (try dsimp only at hf)
      · obtain rfl := Option.some.inj hf
        exact ⟨rfl, rfl⟩
      · cases b <;> (try dsimp only at hf)
        · obtain rfl := Option.some.inj hf
          exact ⟨rfl, rfl⟩
        · cases hf

theorem seedRegionTasks_priority (env : EngineEnv) (region : String) (now : Nat) :
    ∀ t ∈ seedRegionTasks env region now, t.priority = SummonerPriority.High := by
  intro t ht
  unfold seedRegionTasks at ht
  rcases hf : env.featured region with e | games <;> rw [hf] at ht
  · rcases hm : extract_master (env.master_league region) env.summoner_exists region now
      with e' | tasks <;> rw [hm] at ht
    · simp at ht
    · exact ((extract_master_ok_shape _ _ _ _ _ hm).2 t ht).1
  · exact extract_featured_priority env.summoner_exists games region now t ht

/-- C6 (amended): on start the engine seeds the queue per configured
region from the featured-games endpoint, not from the store: every seeded
task has High priority (the Medium and Low bands are untouched and no
store player is enqueued), the seeding appends to the queue unconditionally
(no queue-depth test), each region contributes at most 50 master-league
tasks and only as a fallback when its featured-games fetch failed (when
every featured fetch succeeds the master-league oracle is never
consulted), and `getExistingPlayersForUpdate` is never queried at all. -/
theorem seed_characterization (env : EngineEnv) (q : SummonerQueue) (now : Nat) :
    (seed_with_featured_games env q now =
      q.push_batch ((env.regions.map fun r => seedRegionTasks env r now).flatten)) ∧
    ((seed_with_featured_games env q now).medium_priority = q.medium_priority ∧
      (seed_with_featured_games env q now).low_priority = q.low_priority) ∧
    ((seed_with_featured_games env q now).high_priority =
      q.high_priority ++ (env.regions.map fun r => seedRegionTasks env r now).flatten) ∧
    (∀ t ∈ (env.regions.map fun r => seedRegionTasks env r now).flatten,
      t.priority = SummonerPriority.High) ∧
    (∀ r e, env.featured r = .error e → (seedRegionTasks env r now).length ≤ 50) ∧
    (∀ f, (∀ r ∈ env.regions, (env.featured r).isOk = true) →
      seed_with_featured_games { env with master_league := f } q now =
        seed_with_featured_games env q now) ∧
    (∀ sp, seed_with_featured_games { env with store_players_for_update := sp } q now =
      seed_with_featured_games env q now) := by
  have hall : ∀ t ∈ (env.regions.map fun r => seedRegionTasks env r now).flatten,
      t.priority = SummonerPriority.High := by
    intro t ht
    rw [List.mem_flatten] at ht
    obtain ⟨l, hl, htl⟩ := ht
    rw [List.mem_map] at hl
    obtain ⟨r, _, rfl⟩ := hl
    exact seedRegionTasks_priority env r now t htl
  have hmain : seed_with_featured_games env q now =
      q.push_batch ((env.regions.map fun r => seedRegionTasks env r now).flatten) :=
    seed_eq_push_batch env now env.regions q
  refine ⟨hmain, ⟨?_, ?_⟩, ?_, hall, ?_, ?_, ?_⟩
  · rw [hmain]
    simp only [SummonerQueue.push_batch]
    rw [List.filter_eq_nil_iff.mpr, List.append_nil]
    intro t ht
    have := hall t ht
    simp [this]
  · rw [hmain]
    simp only [SummonerQueue.push_batch]
    rw [List.filter_eq_nil_iff.mpr, List.append_nil]
    intro t ht
    have := hall t ht
    simp [this]
  · rw [hmain]
    simp only [SummonerQueue.push_batch]
    congr 1
    apply List.filter_eq_self.mpr
    intro t ht
    have := hall t ht
    simp [this]
  · intro r e hre
    unfold seedRegionTasks
    rw [hre]
    rcases hm : extract_master (env.master_league r) env.summoner_exists r now
      with e' | tasks
    · simp
    · simpa using (extract_master_ok_shape _ _ _ _ _ hm).1
  · intro f hok
    show List.foldl _ q env.regions = List.foldl _ q env.regions
    have : ∀ (regions : List String) (q : SummonerQueue),
        (∀ r ∈ regions, (env.featured r).isOk = true) →
        List.foldl
          (fun q region =>
            match process_featured_games_for_region { env with master_league := f } q region now with
            | .ok q' => q'
            | .error _ => q) q regions =
        List.foldl
          (fun q region =>
            match process_featured_games_for_region env q region now with
            | .ok q' => q'
            | .error _ => q) q regions := by
      intro regions
      induction regions with
      | nil => intro q _; rfl
      | cons r rest ih =>
          intro q hreg
          have hr : (env.featured r).isOk = true := hreg r (by simp)
          rcases hf : env.featured r with e | games
          · rw [hf] at hr; cases hr
          · simp only [List.foldl_cons]
            rw [show process_featured_games_for_region { env with master_league := f } q r now =
                process_featured_games_for_region env q r now from by
              unfold process_featured_games_for_region
              rw [hf]]
            exact ih _ (fun r' hr' => hreg r' (by simp [hr']))
    exact this env.regions q hok
  · intro sp
    rfl

/-- Dummy High task used to pre-fill a queue to depth 100. -/
def c6Dummy : SummonerTask :=
  { puuid := "dummy", summoner_name := "Dummy", region := "na1"
    priority := .High, added_at := 0, retries := 0 }

/-- A queue whose depth is already 100 (not below 100). -/
def c6Queue : SummonerQueue := ⟨List.replicate 100 c6Dummy, [], []⟩

/-- Engine environment where the store holds a player due for refresh,
featured games fail for the sole region, and the master league returns one
entry. -/
def c6Env : EngineEnv :=
  { regions := ["na1"]
    featured := fun _ => .error .NotFound
    master_league := fun _ => .ok ["masterpuuid1"]
    summoner_exists := fun _ => .ok false
    store_players_for_update := [("storedplayer", "na1")] }

/-- C6 counterexample: the store holds a player for update, yet after
seeding the Medium band is empty (no store-based Medium seeding exists),
and although the queue depth is already 100 — not below 100 — the master
league is still fetched and its synthesized-name task enqueued as High. -/
theorem seed_counterexample :
    c6Env.store_players_for_update = [("storedplayer", "na1")] ∧
    c6Queue.total_size = 100 ∧
    (seed_with_featured_games c6Env c6Queue 0).medium_priority = [] ∧
    (seed_with_featured_games c6Env c6Queue 0).high_priority =
      c6Queue.high_priority ++
        [{ puuid := "masterpuuid1", summoner_name := "Master_Player_masterpu"
           region := "na1", priority := .High, added_at := 0, retries := 0 }] :=
  ⟨rfl, rfl, rfl, rfl⟩

theorem seed_characterization_witness :
    c6Env.featured "na1" = .error ApiError.NotFound ∧
    (seedRegionTasks c6Env "na1" 0).length ≤ 50 :=
  ⟨rfl, (seed_characterization c6Env c6Queue 0).2.2.2.2.1 "na1" ApiError.NotFound rfl⟩

/-! ## Configuration loading (src/config.rs)

The process environment (after the optional dotenv merge) is modelled as an
association list; `std::env::var` is a lookup.  `str::parse::<uN>` accepts
an optional leading `+` followed by digits and rejects values outside the
target width. -/

structure CrawlerConfig where
  queue_size_limit : Nat
  batch_size : Nat
  health_check_interval_seconds : Nat
  state_save_interval_seconds : Nat
  deriving Repr, DecidableEq

structure LoggingConfig where
  level : String
  format : String
  deriving Repr, DecidableEq

structure Config where
  riot_api_key : String
  database_url : String
  regions : List String
  rate_limits : RateLimitConfig
  crawler : CrawlerConfig
  logging : LoggingConfig
  deriving Repr, DecidableEq

/-- `Config::default`. -/
def defaultConfig : Config :=
  { riot_api_key := ""
    database_url := "./data/lol_crawler.db"
    regions := ["na1", "euw1", "kr", "eun1"]
    rate_limits :=
      { application_limit_per_second := 20
        application_limit_per_two_minutes := 100
        max_concurrent_requests := 10
        retry_delay_ms := 1000
        max_retries := 3 }
    crawler :=
      { queue_size_limit := 100000
        batch_size := 100
        health_check_interval_seconds := 60
        state_save_interval_seconds := 300 }
    logging := { level := "info", format := "json" } }

/-- `std::env::var`. -/
def envVar (env : List (String × String)) (name : String) : Option String :=
  (env.find? fun e => e.1 = name).map (fun e => e.2)

/-- `str::parse::<uN>` for an unsigned width bound: an optional leading
`+`, then one or more digits, value below the width bound. -/
def parseRustNat (s : String) (bound : Nat) : Option Nat :=
  let cs := match s.data with
    | '+' :: rest => rest
    | cs => cs
  if cs ≠ [] ∧ cs.all (fun c => c.isDigit) then
    let n := cs.foldl (fun acc c => acc * 10 + (c.toNat - '0'.toNat)) 0
    if n < bound then some n else none
  else
    none

def parseU32 (s : String) : Option Nat := parseRustNat s (2 ^ 32)

def parseU64 (s : String) : Option Nat := parseRustNat s (2 ^ 64)

/-- `usize` on the 64-bit targets the crawler runs on. -/
def parseUsize (s : String) : Option Nat := parseRustNat s (2 ^ 64)

/-- `if let Ok(v) = std::env::var(name) { config.field = v }`. -/
def applyStr (env : List (String × String)) (name : String)
    (f : Config → String → Config) (c : Config) : Config :=
  match envVar env name with
  | some v => f c v
  | none => c

/-- `if let Ok(v) = var(name) { if let Ok(n) = v.parse() { config.field = n } }`:
a set but unparseable value leaves the config unchanged. -/
def applyNum (env : List (String × String)) (name : String)
    (parse : String → Option Nat) (f : Config → Nat → Config) (c : Config) : Config :=
  match envVar env name with
  | some v =>
      match parse v with
      | some n => f c n
      | none => c
  | none => c

/-- The override phase of `Config::from_env_with_dotenv` (config.rs lines
83–143), before validation. -/
def buildConfig (env : List (String × String)) : Config :=
  let c := defaultConfig
  let c := applyStr env "RIOT_API_KEY" (fun c v => { c with riot_api_key := v }) c
  let c := applyStr env "DATABASE_URL" (fun c v => { c with database_url := v }) c
  let c := applyStr env "REGIONS"
    (fun c v => { c with regions := (v.splitOn ",").map (fun s => s.trim) }) c
  let c := applyStr env "LOG_LEVEL"
    (fun c v => { c with logging := { c.logging with level := v } }) c
  let c := applyNum env "APPLICATION_LIMIT_PER_SECOND" parseU32
    (fun c n => { c with rate_limits := { c.rate_limits with application_limit_per_second := n } }) c
  let c := applyNum env "APPLICATION_LIMIT_PER_TWO_MINUTES" parseU32
    (fun c n => { c with rate_limits := { c.rate_limits with application_limit_per_two_minutes := n } }) c
  let c := applyNum env "MAX_CONCURRENT_REQUESTS" parseU32
    (fun c n => { c with rate_limits := { c.rate_limits with max_concurrent_requests := n } }) c
  let c := applyNum env "QUEUE_SIZE_LIMIT" parseUsize
    (fun c n => { c with crawler := { c.crawler with queue_size_limit := n } }) c
  let c := applyNum env "BATCH_SIZE" parseUsize
    (fun c n => { c with crawler := { c.crawler with batch_size := n } }) c
  let c := applyNum env "HEALTH_CHECK_INTERVAL_SECONDS" parseU64
    (fun c n => { c with crawler := { c.crawler with health_check_interval_seconds := n } }) c
  let c := applyNum env "STATE_SAVE_INTERVAL_SECONDS" parseU64
    (fun c n => { c with crawler := { c.crawler with state_save_interval_seconds := n } }) c
  c

/-- The fixed region table of the validation phase. -/
def valid_regions : List String :=
  ["na1", "euw1", "eun1", "kr", "br1", "jp1", "ru", "oc1", "tr1", "la1", "la2"]

/-- The validation phase of `Config::from_env_with_dotenv` (config.rs lines
145–182), bail conditions in source order.  Note there is no check on
`application_limit_per_two_minutes`. -/
def validateConfig (c : Config) : Except String Config :=
  if c.riot_api_key = "" then
    .error "RIOT_API_KEY environment variable is required"
  else if ¬ ("RGAPI-".data.isPrefixOf c.riot_api_key.data) then
    .error "RIOT_API_KEY must start with RGAPI-"
  else if ¬ c.regions.all (fun r => decide (r ∈ valid_regions)) then
    .error "Invalid region"
  else if c.rate_limits.application_limit_per_second = 0 then
    .error "APPLICATION_LIMIT_PER_SECOND must be greater than 0"
  else if c.rate_limits.max_concurrent_requests = 0 then
    .error "MAX_CONCURRENT_REQUESTS must be greater than 0"
  else if c.crawler.queue_size_limit = 0 then
    .error "QUEUE_SIZE_LIMIT must be greater than 0"
  else
    .ok c

/-- `Config::from_env_with_dotenv`: overrides, then validation. -/
def from_env_with_dotenv (env : List (String × String)) : Except String Config :=
  validateConfig (buildConfig env)

/-- C7 (amended): configuration loading fails exactly when the api_key is
missing (empty), the api_key does not start with `RGAPI-`, some region is
outside the fixed region table, or one of the application per-second
limit, max concurrent requests, or queue size limit is zero; a zero
application per-two-minutes limit is NOT rejected, and loading succeeds
whenever none of the listed conditions holds. -/
theorem config_validation_iff (env : List (String × String)) :
    (from_env_with_dotenv env).isOk = true ↔
      ((buildConfig env).riot_api_key ≠ "" ∧
        "RGAPI-".data.isPrefixOf (buildConfig env).riot_api_key.data = true ∧
        (∀ r ∈ (buildConfig env).regions, r ∈ valid_regions) ∧
        (buildConfig env).rate_limits.application_limit_per_second ≠ 0 ∧
        (buildConfig env).rate_limits.max_concurrent_requests ≠ 0 ∧
        (buildConfig env).crawler.queue_size_limit ≠ 0) := by
  unfold from_env_with_dotenv validateConfig
  split_ifs with h1 h2 h3 h4 h5 h6 <;>
    simp_all [Except.isOk, Except.toBool, List.all_eq_true]

/-- Environment exercising the missing two-minutes check: a valid key and
`APPLICATION_LIMIT_PER_TWO_MINUTES=0`. -/
def c7Env : List (String × String) :=
  [("RIOT_API_KEY", "RGAPI-test-key"), ("APPLICATION_LIMIT_PER_TWO_MINUTES", "0")]

/-- C7 counterexample: the claim requires loading to fail when the
application per-two-minutes limit is configured as zero, but the code
accepts it: loading succeeds and the resulting config carries the zero
limit. -/
theorem config_two_minutes_zero_accepted :
    (buildConfig c7Env).rate_limits.application_limit_per_two_minutes = 0 ∧
    (from_env_with_dotenv c7Env).isOk = true :=
  ⟨by rfl, by rfl⟩

theorem applyNum_fail (env : List (String × String)) (name : String)
    (parse : String → Option Nat) (f : Config → Nat → Config) (c : Config)
    (v : String) (hv : envVar env name = some v) (hp : parse v = none) :
    applyNum env name parse f c = c := by
  unfold applyNum
  rw [hv]
  dsimp only
  rw [hp]

/-- The environment of the C10 scenario: a valid key plus every recognized
numeric variable set to a (potentially malformed) string. -/
def c10Env (s1 s2 s3 s4 s5 s6 s7 : String) : List (String × String) :=
  [("RIOT_API_KEY", "RGAPI-key"),
   ("APPLICATION_LIMIT_PER_SECOND", s1),
   ("APPLICATION_LIMIT_PER_TWO_MINUTES", s2),
   ("MAX_CONCURRENT_REQUESTS", s3),
   ("QUEUE_SIZE_LIMIT", s4),
   ("BATCH_SIZE", s5),
   ("HEALTH_CHECK_INTERVAL_SECONDS", s6),
   ("STATE_SAVE_INTERVAL_SECONDS", s7)] 

/-- C10: a recognized numeric environment variable whose value does not
parse is silently ignored — the built-in default is kept for that field —
and configuration loading succeeds without reporting any error for the
malformed value. -/
theorem malformed_numeric_env_defaults (s1 s2 s3 s4 s5 s6 s7 : String)
    (h1 : parseU32 s1 = none) (h2 : parseU32 s2 = none) (h3 : parseU32 s3 = none)
    (h4 : parseUsize s4 = none) (h5 : parseUsize s5 = none)
    (h6 : parseU64 s6 = none) (h7 : parseU64 s7 = none) :
    from_env_with_dotenv (c10Env s1 s2 s3 s4 s5 s6 s7) =
      .ok { defaultConfig with riot_api_key := "RGAPI-key" } := by
  have hb : buildConfig (c10Env s1 s2 s3 s4 s5 s6 s7) =
      { defaultConfig with riot_api_key := "RGAPI-key" } := by
    unfold buildConfig
    dsimp only
    rw [applyNum_fail (c10Env s1 s2 s3 s4 s5 s6 s7) "STATE_SAVE_INTERVAL_SECONDS" parseU64
      (fun c n => { c with crawler := { c.crawler with state_save_interval_seconds := n } })
      _ s7 rfl h7]
    rw [applyNum_fail (c10Env s1 s2 s3 s4 s5 s6 s7) "HEALTH_CHECK_INTERVAL_SECONDS" parseU64
      (fun c n => { c with crawler := { c.crawler with health_check_interval_seconds := n } })
      _ s6 rfl h6]
    rw [applyNum_fail (c10Env s1 s2 s3 s4 s5 s6 s7) "BATCH_SIZE" parseUsize
      (fun c n => { c with crawler := { c.crawler with batch_size := n } })
      _ s5 rfl h5]
    rw [applyNum_fail (c10Env s1 s2 s3 s4 s5 s6 s7) "QUEUE_SIZE_LIMIT" parseUsize
      (fun c n => { c with crawler := { c.crawler with queue_size_limit := n } })
      _ s4 rfl h4]
    rw [applyNum_fail (c10Env s1 s2 s3 s4 s5 s6 s7) "MAX_CONCURRENT_REQUESTS" parseU32
      (fun c n => { c with rate_limits := { c.rate_limits with max_concurrent_requests := n } })
      _ s3 rfl h3]
    rw [applyNum_fail (c10Env s1 s2 s3 s4 s5 s6 s7) "APPLICATION_LIMIT_PER_TWO_MINUTES" parseU32
      (fun c n => { c with rate_limits := { c.rate_limits with application_limit_per_two_minutes := n } })
      _ s2 rfl h2]
    rw [applyNum_fail (c10Env s1 s2 s3 s4 s5 s6 s7) "APPLICATION_LIMIT_PER_SECOND" parseU32
      (fun c n => { c with rate_limits := { c.rate_limits with application_limit_per_second := n } })
      _ s1 rfl h1]
    rfl
  unfold from_env_with_dotenv
  rw [hb]
  rfl

theorem malformed_numeric_env_defaults_witness :
    (parseU32 "not_a_number" = none ∧ parseUsize "not_a_number" = none ∧
      parseU64 "not_a_number" = none) ∧
    from_env_with_dotenv
      (c10Env "not_a_number" "not_a_number" "not_a_number" "not_a_number"
        "not_a_number" "not_a_number" "not_a_number") =
      .ok { defaultConfig with riot_api_key := "RGAPI-key" } :=
  ⟨⟨by rfl, by rfl, by rfl⟩,
    malformed_numeric_env_defaults "not_a_number" "not_a_number" "not_a_number"
      "not_a_number" "not_a_number" "not_a_number" "not_a_number"
      (by rfl) (by rfl) (by rfl) (by rfl) (by rfl) (by rfl) (by rfl)⟩

/-! ## Store: summoners table (src/database/schema.rs, src/database/operations.rs)

Schema (schema.rs lines 36–52): `puuid TEXT PRIMARY KEY, summoner_id TEXT
UNIQUE, ...`.  `Database::insert_summoner` executes `INSERT OR REPLACE
INTO summoners ...` (operations.rs lines 6–24); per SQLite semantics,
`INSERT OR REPLACE` first deletes every existing row that conflicts with
the new row on any uniqueness constraint — here the `puuid` primary key
and the `summoner_id` UNIQUE column (both always bound to non-NULL text)
— and then inserts the new row. -/

structure DbSummoner where
  puuid : String
  summoner_id : String
  account_id : String
  summoner_name : String
  profile_icon_id : Int
  summoner_level : Int
  region : String
  created_at : String
  updated_at : String
  deriving Repr, DecidableEq

structure SummonersTable where
  rows : List DbSummoner
  deriving Repr, DecidableEq

namespace SummonersTable

/-- `Database::insert_summoner` (INSERT OR REPLACE). -/
def insert_summoner (t : SummonersTable) (s : DbSummoner) : SummonersTable :=
  { rows := (t.rows.filter fun r =>
      decide (r.puuid ≠ s.puuid) && decide (r.summoner_id ≠ s.summoner_id)) ++ [s] }

/-- `Database::summoner_exists`: `SELECT COUNT(*) ... WHERE puuid = ?` > 0. -/
def summoner_exists (t : SummonersTable) (puuid : String) : Bool :=
  t.rows.any fun r => decide (r.puuid = puuid)

/-- `Database::get_summoners_count`: `SELECT COUNT(*) FROM summoners`. -/
def get_summoners_count (t : SummonersTable) : Nat := t.rows.length

end SummonersTable

/-- C9: when the table holds a row for pid `A` with summoner_id `S` and a
different player `B ≠ A` is inserted with the same summoner_id `S`, the
UNIQUE constraint on summoner_id makes the upsert replace the unrelated
row: afterwards `A` no longer exists, `B` exists, and the row count has
not increased. -/
theorem insert_summoner_replaces_unrelated (t : SummonersTable) (rA b : DbSummoner)
    (hnodup : (t.rows.map fun r => r.puuid).Nodup)
    (hmem : rA ∈ t.rows) (hsid : rA.summoner_id = b.summoner_id)
    (hne : b.puuid ≠ rA.puuid) :
    (t.insert_summoner b).summoner_exists rA.puuid = false ∧
    (t.insert_summoner b).summoner_exists b.puuid = true ∧
    (t.insert_summoner b).get_summoners_count ≤ t.get_summoners_count := by
  refine ⟨?_, ?_, ?_⟩
  · rw [Bool.eq_false_iff]
    intro hany
    rw [SummonersTable.insert_summoner] at hany
    simp only [SummonersTable.summoner_exists, List.any_append, List.any_cons,
      List.any_nil, Bool.or_eq_true, List.any_eq_true] at hany
    rcases hany with ⟨r, hr, hrp⟩ | hb
    · rw [List.mem_filter] at hr
      obtain ⟨hrmem, hrkeep⟩ := hr
      rw [Bool.and_eq_true, decide_eq_true_iff, decide_eq_true_iff] at hrkeep
      have hrA : r = rA ∨ r.puuid ≠ rA.puuid := by
        by_cases hq : r = rA
        · exact Or.inl hq
        · right
          intro hpq
          have hinj := List.inj_on_of_nodup_map hnodup
          exact hq (hinj hrmem hmem hpq)
      rw [decide_eq_true_iff] at hrp
      rcases hrA with rfl | hdiff
      · exact hrkeep.2 hsid
      · exact hdiff hrp
    · simp only [Bool.or_false, decide_eq_true_iff] at hb
      rcases hb with hb | hb
      · exact hne hb
      · exact absurd hb (by simp)
  · rw [SummonersTable.insert_summoner]
    simp [SummonersTable.summoner_exists]
  · rw [SummonersTable.insert_summoner]
    simp only [SummonersTable.get_summoners_count, List.length_append, List.length_cons,
      List.length_nil]
    have : (t.rows.filter fun r =>
        decide (r.puuid ≠ b.puuid) && decide (r.summoner_id ≠ b.summoner_id)).length
        < t.rows.length := by
      apply List.length_filter_lt_length_iff_exists.mpr
      exact ⟨rA, hmem, by simp [hsid]⟩
    omega

/-- Concrete rows witnessing `insert_summoner_replaces_unrelated`. -/
def c9RowA : DbSummoner :=
  { puuid := "puuidA", summoner_id := "sidS", account_id := "accA"
    summoner_name := "PlayerA", profile_icon_id := 1, summoner_level := 30
    region := "na1", created_at := "t0", updated_at := "t0" }

def c9RowB : DbSummoner :=
  { puuid := "puuidB", summoner_id := "sidS", account_id := "accB"
    summoner_name := "PlayerB", profile_icon_id := 2, summoner_level := 31
    region := "na1", created_at := "t1", updated_at := "t1" }

def c9Table : SummonersTable := { rows := [c9RowA] }

theorem insert_summoner_replaces_unrelated_witness :
    ((c9Table.rows.map fun r => r.puuid).Nodup ∧ c9RowA ∈ c9Table.rows ∧
      c9RowA.summoner_id = c9RowB.summoner_id ∧ c9RowB.puuid ≠ c9RowA.puuid) ∧
    ((c9Table.insert_summoner c9RowB).summoner_exists c9RowA.puuid = false ∧
      (c9Table.insert_summoner c9RowB).summoner_exists c9RowB.puuid = true ∧
      (c9Table.insert_summoner c9RowB).get_summoners_count ≤ c9Table.get_summoners_count) :=
  ⟨⟨by simp [c9Table], by simp [c9Table], by rfl, by simp [c9RowA, c9RowB]⟩,
    insert_summoner_replaces_unrelated c9Table c9RowA c9RowB
      (by simp [c9Table]) (by simp [c9Table]) (by rfl) (by simp [c9RowA, c9RowB])⟩

theorem tryAcquire_refill_spec_witness :
    ((TokenBucket.new 5 5 1000 0).try_acquire 0 10).1 = false ∧
    ((TokenBucket.new 5 5 1000 0).try_acquire 0 10).2.tokens =
      ((TokenBucket.new 5 5 1000 0).refill 0).tokens :=
  ⟨by decide, (tryAcquire_refill_spec (TokenBucket.new 5 5 1000 0) 0 10).2.2 (by decide)⟩
